import Mathlib

/-!
Shallow embedding of the `time_check` repository: the orchestrator
`run_current_to_gsheet.py` and the connectors under `connectors/`.
Machine integers are modelled as `Int`/`Nat`; Python floats are modelled as
`Rat` (all arithmetic performed by the code on the claimed paths is exact);
Python dictionaries are modelled as association lists preserving insertion
order; fallible orchestration is modelled with `Except`.
-/

namespace TimeCheck

/-! ## Cells and JSON-ish scalar values -/

/-- A spreadsheet cell / JSON scalar as used by the orchestrator:
a string (dates), an int (sales/orders) or a float (spend, as `Rat`). -/
inductive Cell where
  | s (v : String)
  | i (n : Int)
  | f (q : Rat)
deriving DecidableEq, Repr

/-- Python `str(...)` of a cell value; only applied to date cells, which are
strings in every run. -/
def cellStr : Cell → String
  | .s v => v
  | .i n => toString n
  | .f q => toString q

/-! ## Python string primitives, modelled on `List Char` so that the kernel
can evaluate them (Lean's `String.trim`/`String.toUpper` are opaque to
`decide`). -/

/-- Python `str.strip()`: drop whitespace from both ends. -/
def pyStrip (s : String) : String :=
  ⟨((s.data.dropWhile Char.isWhitespace).reverse.dropWhile Char.isWhitespace).reverse⟩

/-- Python `str.upper()` restricted to ASCII, which is all the code feeds it
(column letters). -/
def pyUpperChar (c : Char) : Char :=
  if 'a' ≤ c ∧ c ≤ 'z' then Char.ofNat (c.toNat - 32) else c

/-- Python `str.upper()`. -/
def pyUpper (s : String) : String := ⟨s.data.map pyUpperChar⟩

/-! ## Column arithmetic (`col_to_index` in run_current_to_gsheet.py) -/

/-- `col_to_index` from run_current_to_gsheet.py: `A=1, B=2, ...` computed by
`n = n * 26 + (ord(ch) - ord("A") + 1)` over `col.strip().upper()`. -/
def col_to_index (col : String) : Nat :=
  (pyUpper (pyStrip col)).data.foldl (fun n ch => n * 26 + (ch.toNat - 'A'.toNat + 1)) 0

/-! ## Slots (`SLOTS`, `SLOT_TOLERANCE_MINUTES`, `pick_slot`) -/

/-- `SLOT_TOLERANCE_MINUTES = 70` from run_current_to_gsheet.py. -/
def SLOT_TOLERANCE_MINUTES : Nat := 70

/-- The fixed slot list `SLOTS` from run_current_to_gsheet.py:
`(label, hour, minute, start column letter)`. -/
def SLOTS : List (String × Nat × Nat × String) :=
  [("10:00", 10, 0, "B"),
   ("12:00", 12, 0, "I"),
   ("14:00", 14, 0, "P"),
   ("16:00", 16, 0, "W"),
   ("18:00", 18, 0, "AD"),
   ("20:00", 20, 0, "AK"),
   ("22:00", 22, 0, "AR")]

/-- A timestamp within a day, in microseconds since local (KST) midnight.
`dt.replace(hour=hh, minute=mm, second=0, microsecond=0)` keeps the date,
so the difference `dt - center` only depends on the time of day. -/
def usOfTime (h m s us : Nat) : Int :=
  (((h * 60 + m) * 60 + s : Nat) : Int) * 1000000 + (us : Int)

/-- Center of a slot (`dt.replace(hour=hh, minute=mm, second=0, microsecond=0)`)
in microseconds since midnight. -/
def slotCenterUs (hh mm : Nat) : Int := usOfTime hh mm 0 0

/-- `abs((dt - center).total_seconds()) <= tolerance_sec` where
`tolerance_sec = SLOT_TOLERANCE_MINUTES * 60`, computed exactly in
microseconds. -/
def inTolerance (t : Int) (slot : String × Nat × Nat × String) : Bool :=
  (t - slotCenterUs slot.2.1 slot.2.2.1).natAbs ≤ SLOT_TOLERANCE_MINUTES * 60 * 1000000

/-- The `for label, hh, mm, col in SLOTS:` loop body of `pick_slot`. -/
def pickSlotAux (t : Int) : List (String × Nat × Nat × String) → Option (String × String)
  | [] => none
  | slot :: rest =>
    if inTolerance t slot then some (slot.1, slot.2.2.2) else pickSlotAux t rest

/-- `pick_slot` from run_current_to_gsheet.py: first slot of `SLOTS` whose
center is within the tolerance of the timestamp, else `none`. -/
def pick_slot (t : Int) : Option (String × String) := pickSlotAux t SLOTS

/-! ## Sheet model and the idempotent upsert
(`get_sheet_values`, `append_sheet_values`, `update_sheet_values`,
`find_or_create_today_row` and the write loop of `main`). A sheet is a list
of rows; a row maps a 1-based column index to an optional cell. -/

/-- A spreadsheet row: 1-based column index to optional cell content. -/
abbrev SheetRow : Type := Nat → Option Cell

/-- A sheet: rows in order (row `i` of the A1 notation is entry `i - 1`). -/
abbrev Sheet : Type := List SheetRow

/-- The guard `if row and str(row[0]).strip() == ymd` of
`find_or_create_today_row`: an empty column-A cell yields an empty API row,
which is falsy. -/
def rowMatches (ymd : String) (r : SheetRow) : Bool :=
  match r 1 with
  | some c => pyStrip (cellStr c) == ymd
  | none => false

/-- The `for i, row in enumerate(colA, start=1)` scan of
`find_or_create_today_row`, returning the 1-based index of the first row
whose date column equals `ymd`. -/
def findDateRowAux (ymd : String) : List SheetRow → Nat → Option Nat
  | [], _ => none
  | r :: rest, i => if rowMatches ymd r then some i else findDateRowAux ymd rest (i + 1)

/-- First matching row of the date-column scan (1-based), if any. -/
def findDateRow (sheet : Sheet) (ymd : String) : Option Nat :=
  findDateRowAux ymd sheet 1

/-- The row appended by `append_sheet_values(svc, sheet_name, "A:A", [[ymd]])`:
only the date column is populated. -/
def dateOnlyRow (ymd : String) : SheetRow :=
  fun c => if c = 1 then some (.s ymd) else none

/-- `find_or_create_today_row`: return the first row whose column A equals
`ymd`; otherwise append a date-only row at the bottom and return its index
(`len(colA2)` after the append, i.e. `length + 1`). -/
def find_or_create_today_row (sheet : Sheet) (ymd : String) : Sheet × Nat :=
  match findDateRow sheet ymd with
  | some i => (sheet, i)
  | none => (sheet ++ [dateOnlyRow ymd], sheet.length + 1)

/-- Effect of `update_sheet_values` on one row: overwrite the cells at
columns `start .. start + values.length - 1`, leave every other column. -/
def writeCells (r : SheetRow) (start : Nat) (values : List Cell) : SheetRow :=
  fun c =>
    if c < start then r c
    else
      match values[c - start]? with
      | some v => some v
      | none => r c

/-- A missing row reads as all-empty. -/
def emptyRow : SheetRow := fun _ => none

/-- `update_sheet_values(svc, sheet_name, f"{start_col}{row_idx}:{end_col}{row_idx}",
[values])`: overwrite the slot's column range of row `rowIdx` (1-based). -/
def update_sheet_values (sheet : Sheet) (rowIdx : Nat) (start : Nat)
    (values : List Cell) : Sheet :=
  sheet.set (rowIdx - 1) (writeCells (sheet.getD (rowIdx - 1) emptyRow) start values)

/-- One brand-sheet iteration of `main`: find-or-create the date row, then
write the 7 payload values starting at the slot's start column. -/
def upsert (sheet : Sheet) (ymd : String) (startCol : String) (values : List Cell) :
    Sheet :=
  let fc := find_or_create_today_row sheet ymd
  update_sheet_values fc.1 fc.2 (col_to_index startCol) values

/-! ## Connector results and the row payload
(`FIELDS`, `BRAND_SHEETS`, `build_row_payload`, `compute_roas_cpa_for_brand`).
A connector's JSON result is modelled by its `mapped` member: absent or null
maps and absent brands/fields are `none`. Sales/orders are ints and spend is
a float in every connector output (`int(...)` / `float(...)` applied at the
source), so the entry fields are typed accordingly. -/

/-- `FIELDS` from run_current_to_gsheet.py: the fixed 7-value slot order. -/
def FIELDS : List String :=
  ["meta_spend", "cafe24_sales", "cafe24_orders", "coupang_sales",
   "coupang_orders", "naver_sales", "naver_orders"]

/-- `BRAND_SHEETS` from run_current_to_gsheet.py. -/
def BRAND_SHEETS : List (String × String) :=
  [("burdenzero", "부담제로_지금"), ("brainology", "뉴턴젤리_지금")]

/-- One brand's entry inside a connector's `mapped` dict; every field may be
absent (or null, which `x or 0` treats the same way). -/
structure SrcEntry where
  sales : Option Int := none
  orders : Option Int := none
  spend : Option Rat := none
  purchases : Option Int := none
deriving DecidableEq, Repr

/-- A connector's parsed JSON result, reduced to the member the orchestrator
reads: `mapped` (a brand-keyed dict), possibly absent. -/
structure SrcResult where
  mapped : Option (List (String × SrcEntry)) := none
deriving DecidableEq, Repr

/-- `(res.get("mapped") or {}).get(brand) or {}`. -/
def getBrandEntry (res : SrcResult) (brand : String) : SrcEntry :=
  (List.lookup brand (res.mapped.getD [])).getD {}

/-- `int(entry.get("sales") or 0)` for a brand. -/
def brandSales (res : SrcResult) (brand : String) : Int :=
  (getBrandEntry res brand).sales.getD 0

/-- `int(entry.get("orders") or 0)` for a brand. -/
def brandOrders (res : SrcResult) (brand : String) : Int :=
  (getBrandEntry res brand).orders.getD 0

/-- `float(entry.get("spend") or 0.0)` for a brand. -/
def brandSpend (res : SrcResult) (brand : String) : Rat :=
  (getBrandEntry res brand).spend.getD 0

/-- `build_row_payload` from run_current_to_gsheet.py: the 7 values written
from the slot's start cell, in `FIELDS` order. -/
def build_row_payload (brand : String)
    (cafe24 coupang naver meta : SrcResult) : List Cell :=
  let meta_spend := brandSpend meta brand
  let cafe24_sales := brandSales cafe24 brand
  let cafe24_orders := brandOrders cafe24 brand
  let coupang_sales := brandSales coupang brand
  let coupang_orders := brandOrders coupang brand
  let naver_sales := brandSales naver brand
  let naver_orders := brandOrders naver brand
  [.f meta_spend, .i cafe24_sales, .i cafe24_orders, .i coupang_sales,
   .i coupang_orders, .i naver_sales, .i naver_orders]

/-- The record returned by `compute_roas_cpa_for_brand`. -/
structure KPI where
  spend : Rat
  purchases : Int
  revenue : Int
  roas : Rat
  cpa : Rat
deriving DecidableEq, Repr

/-- `compute_roas_cpa_for_brand` from run_current_to_gsheet.py. -/
def compute_roas_cpa_for_brand (brand : String)
    (cafe24_res coupang_res naver_res meta_res : SrcResult) : KPI :=
  let spend := brandSpend meta_res brand
  let cafe24_sales := brandSales cafe24_res brand
  let cafe24_orders := brandOrders cafe24_res brand
  let coupang_sales := brandSales coupang_res brand
  let coupang_orders := brandOrders coupang_res brand
  let naver_sales := brandSales naver_res brand
  let naver_orders := brandOrders naver_res brand
  let revenue := cafe24_sales + coupang_sales + naver_sales
  let purchases := cafe24_orders + coupang_orders + naver_orders
  let roas : Rat := if 0 < spend then (revenue : Rat) / spend else 0
  let cpa : Rat := if 0 < purchases then spend / (purchases : Rat) else 0
  { spend := spend, purchases := purchases, revenue := revenue,
    roas := roas, cpa := cpa }

/-! ## The run (`main`): fetch phase and write phase. Each
`run_script_json` invocation either returns a parsed result or raises
(`RuntimeError` on non-zero exit, empty output, or a bad last line); the
outcome of each of the four subprocesses is an `Except` input. `main` has no
handler around the four calls, so the `do`-sequencing below is the exact
control flow: a raise aborts the run before the sheet is touched. -/

/-- The four sequential `run_script_json` calls of `main`, in source order
(cafe24, coupang, naver, meta). -/
def fetch_phase (cafe24 coupang naver meta : Except String SrcResult) :
    Except String (SrcResult × SrcResult × SrcResult × SrcResult) := do
  let c ← cafe24
  let cp ← coupang
  let nv ← naver
  let m ← meta
  pure (c, cp, nv, m)

/-- The `for brand, sheet_name in BRAND_SHEETS.items()` write loop of `main`:
upsert each brand's sheet at the slot's start column. Sheets are keyed by
sheet name. -/
def write_phase (ymd startCol : String) (c cp nv m : SrcResult)
    (sheets : String → Sheet) : String → Sheet :=
  BRAND_SHEETS.foldl
    (fun acc bs => fun nm =>
      if nm = bs.2 then upsert (acc nm) ymd startCol (build_row_payload bs.1 c cp nv m)
      else acc nm)
    sheets

/-- `main` after a slot was picked: run the four connectors, then write both
brand sheets; any connector failure propagates and nothing is written. -/
def main_run (ymd startCol : String)
    (cafe24 coupang naver meta : Except String SrcResult)
    (sheets : String → Sheet) : Except String (String → Sheet) := do
  let (c, cp, nv, m) ← fetch_phase cafe24 coupang naver meta
  pure (write_phase ymd startCol c cp nv m sheets)

/-! ## Coupang connector (connectors/sales/coupang_current.py):
`normalize_int`, `aggregate_from_excel`, `aggregate_by_brand` and the
`mapped` dict built in its `main`. -/

/-- An openpyxl cell value: `None`, an int, a float, or a string. -/
inductive XCell where
  | null
  | int (n : Int)
  | float (q : Rat)
  | str (v : String)
deriving DecidableEq, Repr

/-- Python `int()` on a float: truncation toward zero. -/
def pyIntOfRat (q : Rat) : Int := if 0 ≤ q then q.floor else q.ceil

/-- Value of a run of decimal digits. -/
def digitsToNat (l : List Char) : Nat :=
  l.foldl (fun n c => n * 10 + (c.toNat - '0'.toNat)) 0

/-- First match of the regex `-?\d+`: scan left to right; a `-` counts only
when directly followed by a digit. -/
def firstIntRun : List Char → Option Int
  | [] => none
  | c :: rest =>
    if c.isDigit then some ((digitsToNat ((c :: rest).takeWhile Char.isDigit) : Nat) : Int)
    else if c = '-' then
      match rest with
      | d :: _ =>
        if d.isDigit then some (-(digitsToNat (rest.takeWhile Char.isDigit) : Nat) : Int)
        else firstIntRun rest
      | [] => none
    else firstIntRun rest

/-- `normalize_int` from coupang_current.py: `None -> 0`; int/float ->
`int(val)`; otherwise `str(val).replace(",", "")` and the first `-?\d+` run,
or 0 when none. -/
def normalize_int : XCell → Int
  | .null => 0
  | .int n => n
  | .float q => pyIntOfRat q
  | .str v => (firstIntRun (v.data.filter (fun c => c ≠ ','))).getD 0

/-- One excel row of the product export: columns C (name), O (gross sales),
P (sold qty), Q (cancel amount, negative), R (cancel qty, negative). -/
structure XRow where
  name : XCell := .null
  o : XCell := .null
  p : XCell := .null
  q : XCell := .null
  rr : XCell := .null
deriving DecidableEq, Repr

/-- `isinstance(x, str)`. -/
def isStrCell : XCell → Bool
  | .str _ => true
  | _ => false

/-- `start_row = 2 if any(isinstance(x, str) for x in (c1, o1, p1)) else 1`:
the first row is treated as a header when C1, O1 or P1 holds a string. -/
def headerDetected (rows : List XRow) : Bool :=
  match rows with
  | [] => false
  | h :: _ => isStrCell h.name || isStrCell h.o || isStrCell h.p

/-- Python `str()` of a non-`None` cell (names are strings in real exports). -/
def pyStrOfXCell : XCell → String
  | .null => "None"
  | .int n => toString n
  | .float q => toString q
  | .str v => v

/-- The name guard of the aggregation loop: `if name is None: continue;
name = str(name).strip(); if not name: continue`. -/
def rowName (r : XRow) : Option String :=
  match r.name with
  | .null => none
  | c =>
    let s := pyStrip (pyStrOfXCell c)
    if s = "" then none else some s

/-- `ProductAgg` from coupang_current.py. -/
structure ProductAgg where
  sales : Int := 0
  qty : Int := 0
deriving DecidableEq, Repr

/-- `agg[name].sales += net_sales; agg[name].qty += net_qty` on an
insertion-ordered dict. -/
def addAgg (l : List (String × ProductAgg)) (name : String) (ds dq : Int) :
    List (String × ProductAgg) :=
  match l with
  | [] => [(name, ⟨ds, dq⟩)]
  | (n, a) :: rest =>
    if n = name then (n, ⟨a.sales + ds, a.qty + dq⟩) :: rest
    else (n, a) :: addAgg rest name ds dq

/-- `aggregate_from_excel` from coupang_current.py: per-product net sales
(`O + Q`) and net quantity (`P + R`), plus the grand totals. -/
def aggregate_from_excel (rows : List XRow) :
    List (String × ProductAgg) × Int × Int :=
  let body := if headerDetected rows then rows.drop 1 else rows
  body.foldl
    (fun acc row =>
      match rowName row with
      | none => acc
      | some name =>
        let net_sales := normalize_int row.o + normalize_int row.q
        let net_qty := normalize_int row.p + normalize_int row.rr
        (addAgg acc.1 name net_sales net_qty, acc.2.1 + net_sales, acc.2.2 + net_qty))
    ([], 0, 0)

/-- Python `k in name` (substring test). -/
def containsSub (hay needle : String) : Bool := decide (needle.data <:+: hay.data)

/-- `brand_map` from `aggregate_by_brand`, an ordered dict. -/
def brand_map : List (String × List String) :=
  [("부담제로", ["부담", "부담제로"]),
   ("빠디", ["빠디"]),
   ("기질 젤리", ["기질", "젤리", "뉴턴", "뉴턴젤리"])]

/-- The inner `for brand, keywords in brand_map.items(): if any(...): ...;
break` loop: the first brand one of whose keywords occurs in the name. -/
def classifyFirst (name : String) : Option String :=
  (brand_map.find? (fun bk => bk.2.any (fun k => containsSub name k))).map (fun bk => bk.1)

/-- `result[brand].sales += agg.sales; result[brand].qty += agg.qty` on the
fixed three-brand result dict. -/
def bumpBrand (res : List (String × ProductAgg)) (brand : String) (a : ProductAgg) :
    List (String × ProductAgg) :=
  res.map (fun nv => if nv.1 = brand then (nv.1, ⟨nv.2.sales + a.sales, nv.2.qty + a.qty⟩) else nv)

/-- `aggregate_by_brand` from coupang_current.py: classify each product name
to the first matching brand (unmatched names are skipped) and sum. -/
def aggregate_by_brand (product_agg : List (String × ProductAgg)) :
    List (String × ProductAgg) :=
  product_agg.foldl
    (fun res na =>
      match classifyFirst na.1 with
      | some brand => bumpBrand res brand na.2
      | none => res)
    (brand_map.map (fun bk => (bk.1, {})))

/-- `brand_agg.get(key, ProductAgg())`. -/
def lookupAgg (brand_agg : List (String × ProductAgg)) (k : String) : ProductAgg :=
  (List.lookup k brand_agg).getD {}

/-- The `mapped` dict built in coupang_current.py's `main` from the brand
aggregation. -/
def coupangMapped (brand_agg : List (String × ProductAgg)) : List (String × SrcEntry) :=
  [("burdenzero",
    { sales := some (lookupAgg brand_agg "부담제로").sales,
      orders := some (lookupAgg brand_agg "부담제로").qty }),
   ("brainology",
    { sales := some (lookupAgg brand_agg "기질 젤리").sales,
      orders := some (lookupAgg brand_agg "기질 젤리").qty }),
   ("ppadi",
    { sales := some (lookupAgg brand_agg "빠디").sales,
      orders := some (lookupAgg brand_agg "빠디").qty })]

/-! ## Naver connector (connectors/sales/naver_current.py): `safe_int` and
the aggregation loop of `get_daily_metrics`. One API row is flattened to the
four leaves the loop reads (`content.order.orderId`,
`content.productOrder.productOrderStatus`, `initialProductAmount`,
`initialProductDiscountAmount`); the diagnostic `status_counter` is not
modelled. -/

/-- A JSON scalar. -/
inductive JVal where
  | null
  | b (v : Bool)
  | i (n : Int)
  | f (q : Rat)
  | s (v : String)
deriving DecidableEq, Repr

/-- Python truthiness of a JSON scalar. -/
def pyTruthy : JVal → Bool
  | .null => false
  | .b v => v
  | .i n => n ≠ 0
  | .f q => q ≠ 0
  | .s v => v ≠ ""

/-- Python `str()` of a JSON scalar (order ids are strings in real data). -/
def pyStrOfJVal : JVal → String
  | .null => "None"
  | .b true => "True"
  | .b false => "False"
  | .i n => toString n
  | .f q => toString q
  | .s v => v

/-- `safe_int` from naver_current.py: `None`/bool -> 0; int -> itself; float
-> `int(v)`; a string -> its value when `v.strip().isdigit()`, else 0
(so no negative values can come from strings). -/
def safe_int : JVal → Int
  | .null => 0
  | .b _ => 0
  | .i n => n
  | .f q => pyIntOfRat q
  | .s v =>
    let t := (pyStrip v).data
    if t ≠ [] ∧ t.all Char.isDigit then ((digitsToNat t : Nat) : Int) else 0

/-- One product-order row, flattened to the read leaves. -/
structure NvRow where
  orderId : JVal := .null
  amount : JVal := .null
  discount : JVal := .null
deriving DecidableEq, Repr

/-- Set insertion on an insertion-ordered list (`order_ids.add`). -/
def insertNew (l : List String) (x : String) : List String :=
  if l.contains x then l else l ++ [x]

/-- The metrics assembled by `get_daily_metrics`. -/
structure NvMetrics where
  sales : Int
  orders : Int
  product_order_count : Int
deriving DecidableEq, Repr

/-- The aggregation loop of `get_daily_metrics` from naver_current.py:
`sales = Σ (initialProductAmount - initialProductDiscountAmount)`,
`orders = |{orderId}|` (distinct ids), `product_order_count` = row count. -/
def get_daily_metrics (rows : List NvRow) : NvMetrics :=
  let acc := rows.foldl
    (fun (acc : List String × Int × Int) row =>
      let ids := if pyTruthy row.orderId
        then insertNew acc.1 (pyStrOfJVal row.orderId) else acc.1
      let sales := acc.2.1 + (safe_int row.amount - safe_int row.discount)
      (ids, sales, acc.2.2 + 1))
    ([], 0, 0)
  { sales := acc.2.1, orders := (acc.1.length : Int), product_order_count := acc.2.2 }

/-! ## Meta connector (connectors/meta/meta_ads_current.py): the `preflight`
check chain, with `debug_token` / `me/permissions` / `me/adaccounts`
responses given as parsed data. -/

/-- `NEEDED_PERMS = {"ads_read", "read_insights"}` (listed in sorted order,
matching the `sorted(...)` the code applies before reporting). -/
def NEEDED_PERMS : List String := ["ads_read", "read_insights"]

/-- The `data` object of `debug_token`, reduced to the field the check
reads: `is_valid` (absent reads as falsy). -/
structure TokenDebugData where
  is_valid : Option Bool := none
deriving DecidableEq, Repr

/-- One row of `me/permissions`' `data`. -/
structure PermRow where
  permission : Option String := none
  status : Option String := none
deriving DecidableEq, Repr

/-- `summarize_permissions` from meta_ads_current.py: the granted and
declined permission sets. -/
def summarize_permissions (rows : List PermRow) : List String × List String :=
  rows.foldl
    (fun acc row =>
      let p := pyStrip (row.permission.getD "")
      let st := pyStrip (row.status.getD "")
      if p = "" then acc
      else if st = "granted" then (insertNew acc.1 p, acc.2)
      else if st = "declined" then (acc.1, insertNew acc.2 p)
      else acc)
    ([], [])

/-- `normalize_act_id`: strip, then ensure the `act_` prefix unless empty. -/
def normalize_act_id (s : String) : String :=
  let t := pyStrip s
  if t = "" then "" else if t.data.take 4 = "act_".data then t else "act_" ++ t

/-- Python `str.replace("act_", "")`: remove every (non-overlapping,
left-to-right) occurrence. -/
def removeActOccurrences : List Char → List Char
  | [] => []
  | 'a' :: 'c' :: 't' :: '_' :: rest => removeActOccurrences rest
  | c :: rest => c :: removeActOccurrences rest

/-- One row of `me/adaccounts`' `data`: the two id fields the check reads. -/
structure AdAccountRow where
  account_id : Option String := none
  idStr : Option String := none
deriving DecidableEq, Repr

/-- The accessible-account set built in step 3 of `preflight`: for each row,
`normalize_act_id(str(acc_id))` from `account_id` and
`normalize_act_id(str(_id).replace("act_", ""))` from `id`, skipping falsy
values. -/
def accessible_accounts (rows : List AdAccountRow) : List String :=
  rows.foldl
    (fun acc a =>
      let acc1 := match a.account_id with
        | some v => if v ≠ "" then insertNew acc (normalize_act_id v) else acc
        | none => acc
      match a.idStr with
      | some v =>
        if v ≠ "" then insertNew acc1 (normalize_act_id ⟨removeActOccurrences v.data⟩)
        else acc1
      | none => acc1)
    []

/-- The three distinct failure kinds `preflight` can raise, in check order. -/
inductive PreflightError where
  | tokenInvalid
  | permissionMissing (missing : List String)
  | adAccountAccess
deriving DecidableEq, Repr

/-- `preflight` from meta_ads_current.py: (1) raise `TOKEN INVALID` when
`debug_token`'s `is_valid` is falsy; else (2) raise `PERMISSION MISSING`
with the sorted missing required permissions when any of `NEEDED_PERMS` is
not granted; else (3) raise `AD ACCOUNT ACCESS` when the target account is
not among the accessible accounts; else succeed. -/
def preflight (dbg : TokenDebugData) (perms : List PermRow)
    (adaccs : List AdAccountRow) (targetAct : String) : Except PreflightError Unit :=
  if dbg.is_valid.getD false = true then
    let granted := (summarize_permissions perms).1
    let missing_needed := NEEDED_PERMS.filter (fun p => !granted.contains p)
    if missing_needed = [] then
      if (accessible_accounts adaccs).contains targetAct then .ok ()
      else .error .adAccountAccess
    else .error (.permissionMissing missing_needed)
  else .error .tokenInvalid

/-! ## Concrete scenario inputs used by the claim theorems -/

/-- Section-8 end-to-end scenario: paid-media result for brand X. -/
def s8meta : SrcResult := ⟨some [("burdenzero", { spend := some 100000, purchases := some 5 })]⟩

/-- Section-8 end-to-end scenario: commerce-site result for brand X. -/
def s8cafe24 : SrcResult := ⟨some [("burdenzero", { sales := some 300000, orders := some 10 })]⟩

/-- Section-8 end-to-end scenario: marketplace result for brand X. -/
def s8coupang : SrcResult := ⟨some [("burdenzero", { sales := some 200000, orders := some 8 })]⟩

/-- Section-8 end-to-end scenario: storefront result for brand X. -/
def s8naver : SrcResult := ⟨some [("burdenzero", { sales := some 150000, orders := some 6 })]⟩

/-- A product export with a header row and one product whose cancelled
quantity (R, signed negative) exceeds its sold quantity (P). -/
def coupangNegRows : List XRow :=
  [{ name := .str "상품명", o := .str "총 매출", p := .str "총 판매수",
     q := .str "취소 금액", rr := .str "취소 수량" },
   { name := .str "부담제로 30포", o := .int 1000, p := .int 0,
     q := .int (-1000), rr := .int (-5) }]

/-! ## Supporting lemmas -/

/-- Every slot's start column is at least column B (index 2), so slot writes
never reach the date column A. -/
theorem slots_start_ge_two : ∀ s ∈ SLOTS, 2 ≤ col_to_index s.2.2.2 := by decide

/-- The slot scan is exactly a first-match search over the slot list. -/
theorem pickSlotAux_eq_find? (t : Int) (l : List (String × Nat × Nat × String)) :
    pickSlotAux t l = (l.find? (inTolerance t)).map (fun s => (s.1, s.2.2.2)) := by
  induction l with
  | nil => rfl
  | cons s rest ih =>
    cases h : inTolerance t s with
    | true => simp [pickSlotAux, h, List.find?_cons_of_pos _ h]
    | false =>
      have hn : List.find? (inTolerance t) (s :: rest) = List.find? (inTolerance t) rest :=
        List.find?_cons_of_neg rest (by simp [h])
      simp [pickSlotAux, h, hn, ih]

/-- A write leaves every column left of the start column unchanged. -/
theorem writeCells_of_lt (r : SheetRow) (start : Nat) (values : List Cell)
    (c : Nat) (h : c < start) : writeCells r start values c = r c := by
  simp [writeCells, h]

/-- A write leaves every column past the written range unchanged. -/
theorem writeCells_of_ge (r : SheetRow) (start : Nat) (values : List Cell)
    (c : Nat) (h : start + values.length ≤ c) : writeCells r start values c = r c := by
  have h1 : ¬ c < start := by omega
  have h2 : values[c - start]? = none := by
    rw [List.getElem?_eq_none_iff]
    omega
  simp [writeCells, h1, h2]

/-- Rewriting the same values into the same range is idempotent. -/
theorem writeCells_writeCells (r : SheetRow) (start : Nat) (values : List Cell) :
    writeCells (writeCells r start values) start values = writeCells r start values := by
  funext c
  by_cases h : c < start
  · simp [writeCells, h]
  · cases hv : values[c - start]? <;> simp [writeCells, h, hv]

/-- A write starting at column 2 or later does not change whether the row
matches a date. -/
theorem rowMatches_writeCells (ymd : String) (r : SheetRow) (start : Nat)
    (values : List Cell) (h : 2 ≤ start) :
    rowMatches ymd (writeCells r start values) = rowMatches ymd r := by
  unfold rowMatches
  rw [writeCells_of_lt r start values 1 (by omega)]

/-- What a successful date scan guarantees about the found index. -/
theorem findDateRowAux_some (ymd : String) (l : List SheetRow) (k i : Nat)
    (h : findDateRowAux ymd l k = some i) :
    k ≤ i ∧ i - k < l.length ∧
      ∃ r, l[i - k]? = some r ∧ rowMatches ymd r = true := by
  induction l generalizing k with
  | nil => simp [findDateRowAux] at h
  | cons r rest ih =>
    unfold findDateRowAux at h
    by_cases hm : rowMatches ymd r
    · simp [hm] at h
      subst h
      exact ⟨Nat.le_refl _, by simp, r, by simp, hm⟩
    · simp [hm] at h
      obtain ⟨h1, h2, rr, h3, h4⟩ := ih (k + 1) h
      refine ⟨by omega, by simp; omega, rr, ?_, h4⟩
      have he : i - k = (i - (k + 1)) + 1 := by omega
      rw [he]
      simpa using h3

/-- Replacing the found row by another matching row does not change the
result of the date scan. -/
theorem findDateRowAux_set (ymd : String) (l : List SheetRow) (k i : Nat)
    (r' : SheetRow) (h : findDateRowAux ymd l k = some i)
    (hr' : rowMatches ymd r' = true) :
    findDateRowAux ymd (l.set (i - k) r') k = some i := by
  induction l generalizing k with
  | nil => simp [findDateRowAux] at h
  | cons r rest ih =>
    unfold findDateRowAux at h
    by_cases hm : rowMatches ymd r
    · simp [hm] at h
      subst h
      simp only [Nat.sub_self, List.set_cons_zero]
      unfold findDateRowAux
      simp [hr']
    · simp [hm] at h
      have h1 : k + 1 ≤ i := (findDateRowAux_some ymd rest (k + 1) i h).1
      have he : i - k = (i - (k + 1)) + 1 := by omega
      rw [he, List.set_cons_succ]
      unfold findDateRowAux
      simp [hm]
      exact ih (k + 1) h

/-- Appending a row to a sheet in which the scan found nothing: the scan of
the longer sheet is decided by the new row alone. -/
theorem findDateRowAux_none_append (ymd : String) (l : List SheetRow) (k : Nat)
    (r' : SheetRow) (h : findDateRowAux ymd l k = none) :
    findDateRowAux ymd (l ++ [r']) k =
      (if rowMatches ymd r' then some (k + l.length) else none) := by
  induction l generalizing k with
  | nil => simp [findDateRowAux]
  | cons r rest ih =>
    unfold findDateRowAux at h
    cases hm : rowMatches ymd r with
    | true => simp [hm] at h
    | false =>
      simp only [hm] at h
      simp only [List.cons_append]
      unfold findDateRowAux
      simp only [hm, Bool.false_eq_true, if_false]
      rw [ih (k + 1) (by simpa using h)]
      have he : k + 1 + rest.length = k + (rest.length + 1) := by omega
      simp [he]

/-- Setting the last element of `l ++ [a]`. -/
theorem set_concat_length {α : Type} (l : List α) (a b : α) :
    (l ++ [a]).set l.length b = l ++ [b] := by
  induction l with
  | nil => rfl
  | cons x xs ih => simp [List.set_cons_succ, ih]

/-- Reduction of the first upsert when the date is already present. -/
theorem upsert_found (sheet : Sheet) (ymd : String) (scol : String) (values : List Cell)
    (i : Nat) (r : SheetRow) (hf : findDateRow sheet ymd = some i)
    (hget : sheet[i - 1]? = some r) :
    upsert sheet ymd scol values
      = sheet.set (i - 1) (writeCells r (col_to_index scol) values) := by
  simp [upsert, find_or_create_today_row, hf, update_sheet_values,
    List.getD_eq_getElem?_getD, hget]

/-- Reduction of the first upsert when the date is absent: a date-only row is
appended and then overwritten in the slot range. -/
theorem upsert_not_found (sheet : Sheet) (ymd : String) (scol : String)
    (values : List Cell) (hf : findDateRow sheet ymd = none) :
    upsert sheet ymd scol values
      = sheet ++ [writeCells (dateOnlyRow ymd) (col_to_index scol) values] := by
  have hgd : (sheet ++ [dateOnlyRow ymd]).getD sheet.length emptyRow
      = dateOnlyRow ymd := by
    rw [List.getD_eq_getElem?_getD, List.getElem?_concat_length]
    rfl
  simp only [upsert, find_or_create_today_row, hf, update_sheet_values,
    Nat.add_sub_cancel, hgd]
  exact set_concat_length sheet (dateOnlyRow ymd) _

/-! ## Claim C1 -/

/-- C1. Upsert idempotence: for every sheet state, well-formed date string,
slot of the fixed slot list and 7-tuple of values, running the
find-or-create-then-write upsert twice with the same `(date, slot, values)`
yields the same sheet as running it once — the second run finds the row the
first run used (or appended) and rewrites the same 7 cells with the same
values. -/
theorem upsert_idempotent (slot : String × Nat × Nat × String)
    (hslot : slot ∈ SLOTS) (sheet : Sheet) (ymd : String)
    (hymd : pyStrip ymd = ymd) (values : List Cell) (_hlen : values.length = 7) :
    upsert (upsert sheet ymd slot.2.2.2 values) ymd slot.2.2.2 values
      = upsert sheet ymd slot.2.2.2 values := by
  have hst : 2 ≤ col_to_index slot.2.2.2 := slots_start_ge_two slot hslot
  cases hf : findDateRow sheet ymd with
  | some i =>
    obtain ⟨hki, hlt, r, hget, hmatch⟩ := findDateRowAux_some ymd sheet 1 i hf
    have e1 := upsert_found sheet ymd slot.2.2.2 values i r hf hget
    set w := writeCells r (col_to_index slot.2.2.2) values with hw
    have hmw : rowMatches ymd w = true := by
      rw [hw, rowMatches_writeCells ymd r _ values hst]
      exact hmatch
    have hf2 : findDateRow (sheet.set (i - 1) w) ymd = some i :=
      findDateRowAux_set ymd sheet 1 i w hf hmw
    have hget2 : (sheet.set (i - 1) w)[i - 1]? = some w :=
      List.getElem?_set_self hlt
    rw [e1, upsert_found (sheet.set (i - 1) w) ymd slot.2.2.2 values i w hf2 hget2]
    rw [hw, writeCells_writeCells, List.set_set]
  | none =>
    have e1 := upsert_not_found sheet ymd slot.2.2.2 values hf
    set w := writeCells (dateOnlyRow ymd) (col_to_index slot.2.2.2) values with hw
    have hmw : rowMatches ymd w = true := by
      rw [hw, rowMatches_writeCells ymd _ _ values hst]
      simp [rowMatches, dateOnlyRow, cellStr, hymd]
    have hf2 : findDateRow (sheet ++ [w]) ymd = some (sheet.length + 1) := by
      unfold findDateRow
      rw [findDateRowAux_none_append ymd sheet 1 w hf, if_pos hmw, Nat.add_comm]
    have hget2 : (sheet ++ [w])[sheet.length + 1 - 1]? = some w := by
      simp only [Nat.add_sub_cancel]
      exact List.getElem?_concat_length sheet w
    rw [e1, upsert_found (sheet ++ [w]) ymd slot.2.2.2 values (sheet.length + 1) w hf2 hget2]
    simp only [Nat.add_sub_cancel, hw, writeCells_writeCells]
    exact set_concat_length sheet w w

/-- Witness for C1: a concrete double upsert on an initially empty sheet. -/
theorem upsert_idempotent_witness :
    upsert
      (upsert [] "2024-05-01" "P"
        [Cell.f 100000, Cell.i 300000, Cell.i 10, Cell.i 200000, Cell.i 8,
         Cell.i 150000, Cell.i 6])
      "2024-05-01" "P"
      [Cell.f 100000, Cell.i 300000, Cell.i 10, Cell.i 200000, Cell.i 8,
       Cell.i 150000, Cell.i 6]
    = upsert [] "2024-05-01" "P"
        [Cell.f 100000, Cell.i 300000, Cell.i 10, Cell.i 200000, Cell.i 8,
         Cell.i 150000, Cell.i 6] :=
  upsert_idempotent ("14:00", 14, 0, "P") (by decide) [] "2024-05-01" (by decide)
    [Cell.f 100000, Cell.i 300000, Cell.i 10, Cell.i 200000, Cell.i 8,
     Cell.i 150000, Cell.i 6] (by decide)

/-! ## Claim C5 -/

/-- C5. Slot-write non-interference: writing one slot's 7 values modifies
only the cells in columns `start .. start + 6` of the row whose date column
matches the run's date. Every other row is unchanged, and on the matched row
every column outside the 7-column range — the date column A included — reads
exactly as before the write. -/
theorem upsert_frame (slot : String × Nat × Nat × String) (_hslot : slot ∈ SLOTS)
    (sheet : Sheet) (ymd : String) (i : Nat)
    (hf : findDateRow sheet ymd = some i)
    (values : List Cell) (hlen : values.length = 7) :
    (upsert sheet ymd slot.2.2.2 values).length = sheet.length
    ∧ (∀ j : Nat, j ≠ i - 1 → (upsert sheet ymd slot.2.2.2 values)[j]? = sheet[j]?)
    ∧ (∀ c : Nat, c < col_to_index slot.2.2.2 ∨ col_to_index slot.2.2.2 + 6 < c →
        ((upsert sheet ymd slot.2.2.2 values)[i - 1]?).map (fun r => r c)
          = (sheet[i - 1]?).map (fun r => r c)) := by
  obtain ⟨hki, hlt, r, hget, hmatch⟩ := findDateRowAux_some ymd sheet 1 i hf
  have e1 := upsert_found sheet ymd slot.2.2.2 values i r hf hget
  refine ⟨by rw [e1]; simp, ?_, ?_⟩
  · intro j hj
    rw [e1]
    exact List.getElem?_set_ne (fun he => hj he.symm)
  · intro c hc
    rw [e1, List.getElem?_set_self hlt, hget]
    have hwc : writeCells r (col_to_index slot.2.2.2) values c = r c := by
      rcases hc with hc | hc
      · exact writeCells_of_lt r _ values c hc
      · exact writeCells_of_ge r _ values c (by omega)
    simp [hwc]

/-- Witness for C5: on a one-row sheet holding the date in column A, an
upsert of slot "14:00" (start column P = 16) leaves the date cell (column 1)
of the matched row unchanged. -/
theorem upsert_frame_witness :
    ((upsert [dateOnlyRow "2024-05-01"] "2024-05-01" "P"
        [Cell.f 100000, Cell.i 300000, Cell.i 10, Cell.i 200000, Cell.i 8,
         Cell.i 150000, Cell.i 6])[0]?).map (fun r => r 1)
      = (([dateOnlyRow "2024-05-01"] : Sheet)[0]?).map (fun r => r 1) :=
  (upsert_frame ("14:00", 14, 0, "P") (by decide) [dateOnlyRow "2024-05-01"]
      "2024-05-01" 1 (by decide)
      [Cell.f 100000, Cell.i 300000, Cell.i 10, Cell.i 200000, Cell.i 8,
       Cell.i 150000, Cell.i 6] (by decide)).2.2 1 (Or.inl (by decide))

/-! ## Claim C3 -/

/-- C3. Slot selection is deterministic and total: `pick_slot` is a function
returning either one `(label, start column)` pair or `none`, and it equals a
first-match scan of the fixed slot list for a center within 70 minutes. A
timestamp exactly 60 minutes from the 10:00 and 12:00 centers (11:00)
resolves to the earlier slot ("10:00", column B); a timestamp within no
slot's tolerance (08:00) yields `none`, making the run a no-op. -/
theorem pick_slot_first_match :
    (∀ t : Int, pick_slot t
        = (SLOTS.find? (inTolerance t)).map (fun s => (s.1, s.2.2.2)))
    ∧ pick_slot (usOfTime 11 0 0 0) = some ("10:00", "B")
    ∧ pick_slot (usOfTime 8 0 0 0) = none :=
  ⟨fun t => pickSlotAux_eq_find? t SLOTS, by decide, by decide⟩

/-! ## Claim C10 -/

/-- C10. The seven slots' start columns B, I, P, W, AD, AK, AR convert to
1-based indices 2, 9, 16, 23, 30, 37, 44; consecutive starts are exactly 7
apart; the 7-column write ranges `[start, start + 6]` are pairwise disjoint;
none of them contains the date column A (index 1); and the write width is
`FIELDS.length = 7`. -/
theorem slot_ranges_disjoint :
    SLOTS.map (fun s => col_to_index s.2.2.2) = [2, 9, 16, 23, 30, 37, 44]
    ∧ List.Chain' (fun a b => a + 7 = b) (SLOTS.map (fun s => col_to_index s.2.2.2))
    ∧ List.Pairwise (fun a b => Disjoint (Finset.Icc a (a + 6)) (Finset.Icc b (b + 6)))
        (SLOTS.map (fun s => col_to_index s.2.2.2))
    ∧ List.Forall (fun st => (1 : Nat) ∉ Finset.Icc st (st + 6))
        (SLOTS.map (fun s => col_to_index s.2.2.2))
    ∧ FIELDS.length = 7 := by
  have hmap : SLOTS.map (fun s => col_to_index s.2.2.2) = [2, 9, 16, 23, 30, 37, 44] := by
    decide
  refine ⟨hmap, ?_, ?_, ?_, by decide⟩
  · rw [hmap]
    simp [List.chain'_cons]
  · rw [hmap]
    decide
  · rw [hmap]
    decide

/-! ## Claim C4 -/

/-- C4 counterexample. On the section-8 end-to-end inputs (spend 100000,
sales/orders 300000/10, 200000/8, 150000/6) the code computes
`cpa = spend / (10 + 8 + 6) = 100000 / 24 = 12500/3 ≈ 4166.67`, not the
claimed 20000 (which would be spend divided by the paid-media purchases
count 5, a quantity `compute_roas_cpa_for_brand` does not use). -/
theorem kpi_s8_cpa_counterexample :
    (compute_roas_cpa_for_brand "burdenzero" s8cafe24 s8coupang s8naver s8meta).cpa
      = 12500 / 3
    ∧ (compute_roas_cpa_for_brand "burdenzero" s8cafe24 s8coupang s8naver s8meta).cpa
      ≠ 20000 := by
  constructor <;>
    norm_num [compute_roas_cpa_for_brand, brandSpend, brandSales, brandOrders,
      getBrandEntry, s8cafe24, s8coupang, s8naver, s8meta, List.lookup]

/-- C4 (amended). KPI definitions and zero-guards: revenue and purchases are
the sums over the three sales sources; `roas = revenue / spend` when
`spend > 0` else 0; `cpa = spend / purchases` when `purchases > 0` else 0.
`spend = 0` with revenue 500 gives `roas = 0`; `purchases = 0` with spend
500 gives `cpa = 0`. The section-8 inputs give revenue 650000, purchases 24,
roas 6.5 and cpa 12500/3 (≈ 4166.67, not 20000). -/
theorem kpi_definitions_and_guards :
    (∀ (b : String) (c cp nv m : SrcResult),
      (compute_roas_cpa_for_brand b c cp nv m).revenue
          = brandSales c b + brandSales cp b + brandSales nv b
      ∧ (compute_roas_cpa_for_brand b c cp nv m).purchases
          = brandOrders c b + brandOrders cp b + brandOrders nv b
      ∧ (compute_roas_cpa_for_brand b c cp nv m).roas
          = (if 0 < brandSpend m b
             then ((brandSales c b + brandSales cp b + brandSales nv b : Int) : Rat)
                    / brandSpend m b
             else 0)
      ∧ (compute_roas_cpa_for_brand b c cp nv m).cpa
          = (if 0 < brandOrders c b + brandOrders cp b + brandOrders nv b
             then brandSpend m b
                    / ((brandOrders c b + brandOrders cp b + brandOrders nv b : Int) : Rat)
             else 0))
    ∧ ((compute_roas_cpa_for_brand "x" ⟨some [("x", { sales := some 500 })]⟩
          ⟨none⟩ ⟨none⟩ ⟨none⟩).roas = 0
      ∧ (compute_roas_cpa_for_brand "x" ⟨some [("x", { sales := some 500 })]⟩
          ⟨none⟩ ⟨none⟩ ⟨none⟩).revenue = 500)
    ∧ ((compute_roas_cpa_for_brand "x" ⟨none⟩ ⟨none⟩ ⟨none⟩
          ⟨some [("x", { spend := some 500 })]⟩).cpa = 0
      ∧ (compute_roas_cpa_for_brand "x" ⟨none⟩ ⟨none⟩ ⟨none⟩
          ⟨some [("x", { spend := some 500 })]⟩).spend = 500
      ∧ (compute_roas_cpa_for_brand "x" ⟨none⟩ ⟨none⟩ ⟨none⟩
          ⟨some [("x", { spend := some 500 })]⟩).purchases = 0)
    ∧ ((compute_roas_cpa_for_brand "burdenzero" s8cafe24 s8coupang s8naver s8meta).revenue
          = 650000
      ∧ (compute_roas_cpa_for_brand "burdenzero" s8cafe24 s8coupang s8naver s8meta).purchases
          = 24
      ∧ (compute_roas_cpa_for_brand "burdenzero" s8cafe24 s8coupang s8naver s8meta).roas
          = 13 / 2
      ∧ (compute_roas_cpa_for_brand "burdenzero" s8cafe24 s8coupang s8naver s8meta).cpa
          = 12500 / 3) := by
  refine ⟨fun b c cp nv m => ⟨rfl, rfl, rfl, rfl⟩, ⟨?_, by decide⟩, ⟨?_, ?_, by decide⟩, ?_, ?_, ?_, ?_⟩ <;>
    norm_num [compute_roas_cpa_for_brand, brandSpend, brandSales, brandOrders,
      getBrandEntry, s8cafe24, s8coupang, s8naver, s8meta, List.lookup]

/-! ## Claim C6 -/

/-- C6. Missing data never surfaces as a missing-key error: for every
4-tuple of connector results — `mapped` absent, a brand key absent, or an
individual field absent included — `build_row_payload` is total and returns
exactly 7 values in the fixed `FIELDS` order, with every absent field read
as zero (`(... or {})` and `(... or 0)` defaults). -/
theorem build_row_payload_safe :
    (∀ (b : String) (c cp nv m : SrcResult),
      build_row_payload b c cp nv m =
        [Cell.f (brandSpend m b), Cell.i (brandSales c b), Cell.i (brandOrders c b),
         Cell.i (brandSales cp b), Cell.i (brandOrders cp b),
         Cell.i (brandSales nv b), Cell.i (brandOrders nv b)]
      ∧ (build_row_payload b c cp nv m).length = FIELDS.length)
    ∧ (∀ b : String, build_row_payload b ⟨none⟩ ⟨none⟩ ⟨none⟩ ⟨none⟩
        = [Cell.f 0, Cell.i 0, Cell.i 0, Cell.i 0, Cell.i 0, Cell.i 0, Cell.i 0])
    ∧ build_row_payload "burdenzero"
        ⟨some [("burdenzero", { orders := some 3 })]⟩
        ⟨some []⟩
        ⟨some [("brainology", { sales := some 7 })]⟩
        ⟨none⟩
      = [Cell.f 0, Cell.i 0, Cell.i 3, Cell.i 0, Cell.i 0, Cell.i 0, Cell.i 0]
    ∧ FIELDS.length = 7 :=
  ⟨fun b c cp nv m => ⟨rfl, rfl⟩, fun b => rfl, by decide, rfl⟩

/-! ## Claim C2 -/

/-- C2 counterexample. With three connectors succeeding and the marketplace
connector raising (as `run_script_json` does on a failed subprocess), `main`
does not proceed and write the sheet row with the failed source zeroed —
the error propagates unhandled and the run produces no written sheets. -/
theorem partial_failure_not_degraded_counterexample :
    main_run "2024-05-01" "P" (.ok ⟨some []⟩)
        (.error "[SCRIPT FAIL] connectors/sales/coupang_current.py")
        (.ok ⟨some []⟩) (.ok ⟨some []⟩) (fun _ => [])
      ≠ .ok (write_phase "2024-05-01" "P" ⟨some []⟩ ⟨some []⟩ ⟨some []⟩ ⟨some []⟩
          (fun _ => []))
    ∧ main_run "2024-05-01" "P" (.ok ⟨some []⟩)
        (.error "[SCRIPT FAIL] connectors/sales/coupang_current.py")
        (.ok ⟨some []⟩) (.ok ⟨some []⟩) (fun _ => [])
      = .error "[SCRIPT FAIL] connectors/sales/coupang_current.py" :=
  ⟨(fun h => nomatch h), rfl⟩

/-- C2 (amended). Any single connector failure aborts the whole run with the
connector's error and nothing written — there is no per-source degradation
or per-source status; only when all four succeed does the run proceed and
write both brand sheets. (Zeros appear in a written row only when a
connector succeeds but omits a brand or field, per `build_row_payload`.) -/
theorem main_run_aborts_on_any_source_failure :
    (∀ (ymd st e : String) (cp nv m : Except String SrcResult) (sh : String → Sheet),
      main_run ymd st (.error e) cp nv m sh = .error e)
    ∧ (∀ (ymd st : String) (c : SrcResult) (e : String) (nv m : Except String SrcResult)
        (sh : String → Sheet),
      main_run ymd st (.ok c) (.error e) nv m sh = .error e)
    ∧ (∀ (ymd st : String) (c cp : SrcResult) (e : String) (m : Except String SrcResult)
        (sh : String → Sheet),
      main_run ymd st (.ok c) (.ok cp) (.error e) m sh = .error e)
    ∧ (∀ (ymd st : String) (c cp nv : SrcResult) (e : String) (sh : String → Sheet),
      main_run ymd st (.ok c) (.ok cp) (.ok nv) (.error e) sh = .error e)
    ∧ (∀ (ymd st : String) (c cp nv m : SrcResult) (sh : String → Sheet),
      main_run ymd st (.ok c) (.ok cp) (.ok nv) (.ok m) sh
        = .ok (write_phase ymd st c cp nv m sh)) :=
  ⟨fun _ _ _ _ _ _ _ => rfl, fun _ _ _ _ _ _ _ => rfl, fun _ _ _ _ _ _ _ => rfl,
   fun _ _ _ _ _ _ _ => rfl, fun _ _ _ _ _ _ _ => rfl⟩

/-! ## Claim C9 -/

/-- C9. `preflight` raises three distinct failure kinds in a fixed order:
an invalid token yields the token-invalid error regardless of the other
inputs; a valid token with a missing required permission yields the
missing-permission error; a valid, fully-permitted token whose accessible
accounts do not contain the target yields the account-access error (a
distinct constructor, never the other two); and `preflight` succeeds exactly
when all three checks pass. -/
theorem preflight_check_order :
    (∀ (dbg : TokenDebugData) (perms : List PermRow) (adaccs : List AdAccountRow)
        (target : String),
      dbg.is_valid.getD false = false →
        preflight dbg perms adaccs target = .error .tokenInvalid)
    ∧ (∀ (dbg : TokenDebugData) (perms : List PermRow) (adaccs : List AdAccountRow)
        (target : String),
      dbg.is_valid.getD false = true →
      NEEDED_PERMS.filter (fun p => !(summarize_permissions perms).1.contains p) ≠ [] →
        preflight dbg perms adaccs target
          = .error (.permissionMissing
              (NEEDED_PERMS.filter (fun p => !(summarize_permissions perms).1.contains p))))
    ∧ (∀ (dbg : TokenDebugData) (perms : List PermRow) (adaccs : List AdAccountRow)
        (target : String),
      dbg.is_valid.getD false = true →
      NEEDED_PERMS.filter (fun p => !(summarize_permissions perms).1.contains p) = [] →
      (accessible_accounts adaccs).contains target = false →
        preflight dbg perms adaccs target = .error .adAccountAccess)
    ∧ (∀ (dbg : TokenDebugData) (perms : List PermRow) (adaccs : List AdAccountRow)
        (target : String),
      preflight dbg perms adaccs target = .ok ()
        ↔ dbg.is_valid.getD false = true
          ∧ NEEDED_PERMS.filter (fun p => !(summarize_permissions perms).1.contains p) = []
          ∧ (accessible_accounts adaccs).contains target = true)
    ∧ (∀ ms, PreflightError.tokenInvalid ≠ PreflightError.permissionMissing ms)
    ∧ PreflightError.tokenInvalid ≠ PreflightError.adAccountAccess
    ∧ (∀ ms, PreflightError.permissionMissing ms ≠ PreflightError.adAccountAccess) := by
  refine ⟨?_, ?_, ?_, ?_,
    fun ms h => PreflightError.noConfusion h,
    fun h => PreflightError.noConfusion h,
    fun ms h => PreflightError.noConfusion h⟩
  · intro dbg perms adaccs target h
    simp only [preflight]
    rw [if_neg (show ¬ dbg.is_valid.getD false = true by simp [h])]
  · intro dbg perms adaccs target h1 h2
    simp only [preflight]
    rw [if_pos h1, if_neg h2]
  · intro dbg perms adaccs target h1 h2 h3
    simp only [preflight]
    rw [if_pos h1, if_pos h2,
      if_neg (show ¬ (accessible_accounts adaccs).contains target = true by
        rw [h3]; exact Bool.false_ne_true)]
  · intro dbg perms adaccs target
    constructor
    · intro h
      simp only [preflight] at h
      by_cases g1 : dbg.is_valid.getD false = true
      · rw [if_pos g1] at h
        by_cases g2 : NEEDED_PERMS.filter
            (fun p => !(summarize_permissions perms).1.contains p) = []
        · rw [if_pos g2] at h
          by_cases g3 : (accessible_accounts adaccs).contains target = true
          · exact ⟨g1, g2, g3⟩
          · rw [if_neg g3] at h
            exact absurd h (by simp)
        · rw [if_neg g2] at h
          exact absurd h (by simp)
      · rw [if_neg g1] at h
        exact absurd h (by simp)
    · rintro ⟨h1, h2, h3⟩
      simp only [preflight]
      rw [if_pos h1, if_pos h2, if_pos h3]

/-- Witness for C9: a valid, fully-permitted token that is not assigned the
target ad account fails with the account-access error. -/
theorem preflight_check_order_witness :
    preflight { is_valid := some true }
      [{ permission := some "ads_read", status := some "granted" },
       { permission := some "read_insights", status := some "granted" }]
      [{ account_id := some "123", idStr := some "act_123" }]
      "act_999" = .error .adAccountAccess :=
  preflight_check_order.2.2.1 { is_valid := some true }
    [{ permission := some "ads_read", status := some "granted" },
     { permission := some "read_insights", status := some "granted" }]
    [{ account_id := some "123", idStr := some "act_123" }]
    "act_999" (by decide) (by decide) (by decide)

/-! ## Claim C7 -/

/-- C7 counterexample. A Coupang product export in which a brand's cancelled
quantity exceeds its sold quantity yields a negative per-brand orders value
(`P + R = 0 + (-5) = -5`) in the connector's `mapped` output, so the
normalized orders count is not always `>= 0`. -/
theorem coupang_orders_negative_counterexample :
    (List.lookup "burdenzero"
        (coupangMapped (aggregate_by_brand (aggregate_from_excel coupangNegRows).1))).map
        SrcEntry.orders
      = some (some (-5))
    ∧ ((-5 : Int) < 0) :=
  ⟨by decide, by decide⟩

/-- C7 (amended). Sales may be negative (net of refunds), and the Naver
orders value — the count of distinct order identifiers — is always `>= 0`;
but the Coupang per-brand orders value is a sum of signed net quantities
(sold plus negative cancelled) and can be negative. -/
theorem orders_sign_invariant_amended :
    (∀ rows : List NvRow, 0 ≤ (get_daily_metrics rows).orders)
    ∧ (get_daily_metrics
        [{ orderId := .s "A", amount := .i 100, discount := .i 300 }]).sales = -200
    ∧ (List.lookup "burdenzero"
        (coupangMapped (aggregate_by_brand (aggregate_from_excel coupangNegRows).1))).map
        SrcEntry.orders
      = some (some (-5)) := by
  refine ⟨fun rows => ?_, by decide, by decide⟩
  simp only [get_daily_metrics]
  exact Int.natCast_nonneg _

/-- Unfolding of `bumpBrand` on a cons cell. -/
theorem bumpBrand_cons (k : String) (v : ProductAgg) (rest : List (String × ProductAgg))
    (b : String) (a : ProductAgg) :
    bumpBrand ((k, v) :: rest) b a
      = (if k = b then (k, ⟨v.sales + a.sales, v.qty + a.qty⟩) else (k, v))
          :: bumpBrand rest b a := rfl

/-- A bump of brand `b`'s entry leaves every other key's association
unchanged. -/
theorem lookup_bumpBrand (res : List (String × ProductAgg)) (b : String)
    (a : ProductAgg) (n : String) (hn : n ≠ b) :
    List.lookup n (bumpBrand res b a) = List.lookup n res := by
  induction res with
  | nil => rfl
  | cons x rest ih =>
    obtain ⟨k, v⟩ := x
    rw [bumpBrand_cons]
    by_cases hk : k = b
    · have hne : (n == k) = false := by
        rw [hk]
        exact beq_eq_false_iff_ne.mpr hn
      rw [if_pos hk]
      simp only [List.lookup, hne]
      exact ih
    · rw [if_neg hk]
      cases hnk : (n == k) with
      | true => simp [List.lookup, hnk]
      | false =>
        simp only [List.lookup, hnk]
        exact ih

/-! ## Claim C8 -/

/-- C8. Brand classification is first-match-wins with silent drop: a name
matching no brand's keywords contributes nothing to the brand aggregation; a
name whose first matching brand is `b` contributes exactly once, to `b`'s
entry only (all other brands' totals are unchanged); and on the four sample
product names, three are classified (one per brand) and the fourth is
dropped, its sales and quantity appearing in no brand's total. -/
theorem brand_classification_first_match :
    (∀ (l : List (String × ProductAgg)) (n : String) (a : ProductAgg),
      classifyFirst n = none →
        aggregate_by_brand (l ++ [(n, a)]) = aggregate_by_brand l)
    ∧ (∀ (l : List (String × ProductAgg)) (n : String) (a : ProductAgg) (b : String),
      classifyFirst n = some b →
        aggregate_by_brand (l ++ [(n, a)]) = bumpBrand (aggregate_by_brand l) b a)
    ∧ (∀ (res : List (String × ProductAgg)) (b : String) (a : ProductAgg) (n : String),
      n ≠ b → List.lookup n (bumpBrand res b a) = List.lookup n res)
    ∧ ["부담제로 30포", "빠디 스틱", "뉴턴젤리 키즈", "정체불명 상품"].map classifyFirst
        = [some "부담제로", some "빠디", some "기질 젤리", none]
    ∧ aggregate_by_brand
        [("부담제로 30포", ⟨100, 1⟩), ("빠디 스틱", ⟨200, 2⟩),
         ("뉴턴젤리 키즈", ⟨400, 4⟩), ("정체불명 상품", ⟨800, 8⟩)]
      = [("부담제로", ⟨100, 1⟩), ("빠디", ⟨200, 2⟩), ("기질 젤리", ⟨400, 4⟩)] := by
  refine ⟨?_, ?_, ?_, by decide, by decide⟩
  · intro l n a h
    simp [aggregate_by_brand, List.foldl_append, h]
  · intro l n a b h
    simp [aggregate_by_brand, List.foldl_append, h]
  · exact lookup_bumpBrand

/-- Witness for C8: the name "빠디 스틱" classifies to brand "빠디" and its
aggregation step is exactly a bump of that brand's entry. -/
theorem brand_classification_first_match_witness :
    aggregate_by_brand [("빠디 스틱", ⟨200, 2⟩)]
      = bumpBrand (aggregate_by_brand []) "빠디" ⟨200, 2⟩ :=
  brand_classification_first_match.2.1 [] "빠디 스틱" ⟨200, 2⟩ "빠디" (by decide)

end TimeCheck
